import Mathlib

/-!
Verification of the Inquiry Service (`src/server.ts`): an HTTP service with
three operations (create, list, delete) over a single `Inquiry` record type,
persisted through an external ORM client (the Persistence Gateway).

The embedding below translates the handler bodies of `server.ts` directly.
The Persistence Gateway (`prisma.inquiry.create` / `findMany` / `delete`)
is an external collaborator; it is modelled by its documented semantics:
`create` inserts a row (system-managed `createdAt`/`updatedAt` set to the
current time) and throws on a missing required argument, an invalid `Date`,
a unique-key violation, or a connectivity failure; `findMany` with
`orderBy createdAt desc` returns all rows sorted by `createdAt` descending;
`delete` removes the row with the given primary key and throws (P2025) when
no such row exists.  JavaScript `Date` parsing (`new Date(eventDate)`) is an
environment function `String → Option Int` (`none` models an Invalid Date),
and `undefined` request-body members are modelled with `Option`.
-/

namespace WDDServer

/-- A persisted inquiry row, after the Persistence Gateway filled in the
system-managed `createdAt` and `updatedAt` timestamps. -/
structure Inquiry where
  id : String
  name : String
  email : String
  message : String
  eventDate : Int
  userId : Option String
  createdAt : Int
  updatedAt : Int
deriving Repr, DecidableEq

/-- The JSON request body of a create request.  The five members the handler
destructures are explicit; every member of `InquiryRequest` is required in
the TypeScript interface but nothing enforces its presence at runtime, so
each is an `Option` (`none` = the member is absent, i.e. `undefined`).
`extra` collects any further members of the JSON object (for example a
caller-supplied `id`, `createdAt` or `updatedAt`), which the handler never
reads. -/
structure ReqBody where
  name : Option String
  email : Option String
  message : Option String
  eventDate : Option String
  userId : Option String
  extra : List (String × String)
deriving Repr, DecidableEq

/-- Ways a Persistence Gateway call can throw. -/
inductive PrismaError where
  /-- Missing required argument or invalid `Date` value. -/
  | validation
  /-- Unique-constraint violation on the primary key. -/
  | uniqueViolation
  /-- No row with the given primary key (Prisma error P2025). -/
  | notFound
  /-- The datastore is unreachable. -/
  | connectivity
deriving Repr, DecidableEq

/-- The state of the external datastore: its rows, plus a flag modelling
whether the datastore is reachable (false makes every gateway call throw a
connectivity error). -/
structure DB where
  rows : List Inquiry
  connected : Bool
deriving Repr, DecidableEq

/-- Model of `prisma.inquiry.create({data: {id, name, email, message,
eventDate, userId}})`.  The call throws when the datastore is unreachable,
when a required argument is `undefined` or the `eventDate` is an invalid
`Date`, or when the primary key `id` already exists; otherwise it inserts
the row with `createdAt`/`updatedAt` set by the datastore to the current
time and returns the created row. -/
def inquiryCreate (db : DB) (now : Int) (id : String)
    (name email message : Option String) (eventDate : Option Int)
    (userId : Option String) : Except PrismaError (Inquiry × DB) :=
  if !db.connected then .error .connectivity
  else
    match name, email, message, eventDate with
    | some n, some e, some m, some d =>
        if db.rows.any (fun r => r.id = id) then .error .uniqueViolation
        else
          let row : Inquiry :=
            { id := id, name := n, email := e, message := m, eventDate := d,
              userId := userId, createdAt := now, updatedAt := now }
          .ok (row, { db with rows := db.rows ++ [row] })
    | _, _, _, _ => .error .validation

/-- Ordering used by the list operation: `a` comes before `b` when `a` was
created no earlier than `b` (`createdAt` descending). -/
def createdAtDesc (a b : Inquiry) : Prop := b.createdAt ≤ a.createdAt

instance : DecidableRel createdAtDesc := fun a b => by
  unfold createdAtDesc; infer_instance

instance : IsTotal Inquiry createdAtDesc :=
  ⟨fun a b => (Int.le_total b.createdAt a.createdAt).imp id id⟩

instance : IsTrans Inquiry createdAtDesc :=
  ⟨fun _ _ _ hab hbc => Int.le_trans hbc hab⟩

/-- Model of `prisma.inquiry.findMany({orderBy: {createdAt: "desc"}})`:
all rows, sorted by `createdAt` descending. -/
def inquiryFindMany (db : DB) : Except PrismaError (List Inquiry) :=
  if !db.connected then .error .connectivity
  else .ok (db.rows.insertionSort createdAtDesc)

/-- Model of `prisma.inquiry.delete({where: {id}})`: removes the row whose
primary key matches and returns it; throws P2025 when no row matches. -/
def inquiryDelete (db : DB) (id : String) :
    Except PrismaError (Inquiry × DB) :=
  if !db.connected then .error .connectivity
  else
    match db.rows.find? (fun r => r.id = id) with
    | none => .error .notFound
    | some r => .ok (r, { db with rows := db.rows.filter (fun x => x.id ≠ id) })

/-- A JSON response body, as produced by the handlers via `res.json`. -/
inductive RespBody where
  /-- `res.json(inquiry)`: a single record serialized as a JSON object. -/
  | record : Inquiry → RespBody
  /-- `res.json(inquiries)`: a JSON array of records. -/
  | records : List Inquiry → RespBody
  /-- A JSON object of the shape `\x7berror: s\x7d`. -/
  | errObj : String → RespBody
  /-- A JSON object of the shape `\x7bmessage: s\x7d`. -/
  | msgObj : String → RespBody
deriving Repr, DecidableEq

/-- An HTTP response: status code plus JSON body.  `res.json(x)` with no
explicit status sends 200. -/
structure Response where
  status : Nat
  body : RespBody
deriving Repr, DecidableEq

/-- A server-side log line fed to `console.error`; it carries the full
error detail, which never reaches the HTTP response. -/
inductive LogEntry where
  /-- `console.error("Create inquiry error:", error)`. -/
  | createError : PrismaError → LogEntry
  /-- `console.error("Get inquiries error:", error)`. -/
  | getError : PrismaError → LogEntry
  /-- `console.error("Delete inquiry error:", error)`. -/
  | deleteError : PrismaError → LogEntry
  /-- `console.error(err.stack)` in the error-handling middleware. -/
  | stackTrace : String → LogEntry
deriving Repr, DecidableEq

/-- Everything a handler produces: the HTTP response, the datastore state
after the persistence call, and the server-side log lines written. -/
structure HandlerResult where
  resp : Response
  db : DB
  log : List LogEntry
deriving Repr, DecidableEq

/-- Per-request environment: the 16 random bytes `uuidv4` draws, the
current time the datastore stamps into `createdAt`/`updatedAt`, and the
JavaScript `Date` parser (`none` models an Invalid Date, as produced by
`new Date(undefined)` or an unparseable string). -/
structure Env where
  uuidBytes : List Nat
  now : Int
  parseDate : String → Option Int

/-- Lower-case hexadecimal digit for `n < 16`. -/
def hexChar (n : Nat) : Char :=
  if n < 10 then Char.ofNat (48 + n) else Char.ofNat (87 + n)

/-- Two-digit lower-case hexadecimal rendering of a byte (the characters of
the `byteToHex` table entry the `uuid` package looks up). -/
def byteHexChars (b : Nat) : List Char :=
  [hexChar (b / 16 % 16), hexChar (b % 16)]

/-- The two byte edits of the `uuid` package's `v4`: byte 6 becomes
`(b & 0x0f) | 0x40` (the version nibble) and byte 8 becomes
`(b & 0x3f) | 0x80` (the variant bits). -/
def setVersionVariant (bytes : List Nat) : List Nat :=
  (bytes.set 6 (bytes.getD 6 0 % 16 + 64)).set 8 (bytes.getD 8 0 % 64 + 128)

/-- The `uuid` package's `unsafeStringify`: hex bytes grouped 4-2-2-2-6
with dashes between the groups.  Its JavaScript string concatenation is
modelled as concatenation of the character lists, wrapped into a `String`
once at the end (the same text either way). -/
def uuidStringify (bytes : List Nat) : String :=
  let hx := fun (i : Nat) => byteHexChars (bytes.getD i 0)
  String.mk (hx 0 ++ hx 1 ++ hx 2 ++ hx 3 ++ ['-'] ++ hx 4 ++ hx 5 ++ ['-'] ++
    hx 6 ++ hx 7 ++ ['-'] ++ hx 8 ++ hx 9 ++ ['-'] ++
    hx 10 ++ hx 11 ++ hx 12 ++ hx 13 ++ hx 14 ++ hx 15)

/-- `uuidv4` from the `uuid` package, applied to the 16 random bytes the
runtime drew for this request. -/
def uuidv4 (bytes : List Nat) : String :=
  uuidStringify (setVersionVariant bytes)

/-- A character is a lower-case hexadecimal digit. -/
def isHexChar (c : Char) : Bool :=
  (48 ≤ c.toNat && c.toNat ≤ 57) || (97 ≤ c.toNat && c.toNat ≤ 102)

/-- `s` has the textual form of a UUID v4: 36 characters, dashes at
positions 8, 13, 18 and 23, lower-case hex digits everywhere else, the
version character (position 14) equal to `4`, and the variant character
(position 19) in `8`, `9`, `a`, `b`. -/
def isUuidV4String (s : String) : Bool :=
  let cs := s.toList
  cs.length = 36 &&
  (List.range 36).all (fun i =>
    if i = 8 || i = 13 || i = 18 || i = 23 then cs.getD i ' ' = '-'
    else isHexChar (cs.getD i ' ')) &&
  cs.getD 14 ' ' = '4' &&
  (cs.getD 19 ' ' = '8' || cs.getD 19 ' ' = '9' ||
    cs.getD 19 ' ' = 'a' || cs.getD 19 ' ' = 'b')

/-- The `POST /api/inquiries` handler: destructures `name`, `email`,
`message`, `eventDate`, `userId` from the body, generates a fresh UUID,
builds a `Date` from `eventDate`, and asks the gateway to insert the row.
On success it sends the created row as JSON (status 200); on any thrown
error it logs the detail and sends 500 with a fixed generic body. -/
def postInquiries (env : Env) (db : DB) (body : ReqBody) : HandlerResult :=
  match inquiryCreate db env.now (uuidv4 env.uuidBytes) body.name body.email
      body.message (body.eventDate.bind env.parseDate) body.userId with
  | .ok (inquiry, db2) =>
      { resp := { status := 200, body := .record inquiry }, db := db2, log := [] }
  | .error e =>
      { resp := { status := 500, body := .errObj "Failed to create inquiry" },
        db := db, log := [.createError e] }

/-- The `GET /api/inquiries` handler: asks the gateway for all rows ordered
by `createdAt` descending and sends them as a JSON array; on any thrown
error it logs the detail and sends 500 with a fixed generic body. -/
def getInquiries (db : DB) : HandlerResult :=
  match inquiryFindMany db with
  | .ok inquiries =>
      { resp := { status := 200, body := .records inquiries }, db := db, log := [] }
  | .error e =>
      { resp := { status := 500, body := .errObj "Failed to fetch inquiries" },
        db := db, log := [.getError e] }

/-- The `DELETE /api/inquiries/:id` handler: asks the gateway to remove the
row with the matching id.  On success it sends a fixed confirmation
message; on any thrown error (including P2025 for a missing row) it logs
the detail and sends 500 with a fixed generic body. -/
def deleteInquiry (db : DB) (id : String) : HandlerResult :=
  match inquiryDelete db id with
  | .ok (_, db2) =>
      { resp := { status := 200, body := .msgObj "Inquiry deleted successfully" },
        db := db2, log := [] }
  | .error e =>
      { resp := { status := 500, body := .errObj "Failed to delete inquiry" },
        db := db, log := [.deleteError e] }

/-- A JavaScript `Error` as seen by the error-handling middleware. -/
structure JsError where
  message : String
  stack : String
deriving Repr, DecidableEq

/-- The catch-all error-handling middleware: logs `err.stack` and sends
500 with the fixed JSON body. -/
def errorMiddleware (err : JsError) : Response × List LogEntry :=
  ({ status := 500, body := .errObj "Something broke!" }, [.stackTrace err.stack])

/-! ## Helper lemmas -/

/-- `hexChar` of a nibble is a lower-case hexadecimal digit. -/
theorem isHexChar_hexChar (n : Nat) (h : n < 16) : isHexChar (hexChar n) = true := by
  interval_cases n <;> decide

/-- Any 16 random bytes produce a string of UUID v4 textual form. -/
theorem isUuidV4String_uuidv4 (bytes : List Nat) (hlen : bytes.length = 16) :
    isUuidV4String (uuidv4 bytes) = true := by
  rcases bytes with _ | ⟨b0, bytes⟩
  · simp at hlen
  rcases bytes with _ | ⟨b1, bytes⟩
  · simp at hlen
  rcases bytes with _ | ⟨b2, bytes⟩
  · simp at hlen
  rcases bytes with _ | ⟨b3, bytes⟩
  · simp at hlen
  rcases bytes with _ | ⟨b4, bytes⟩
  · simp at hlen
  rcases bytes with _ | ⟨b5, bytes⟩
  · simp at hlen
  rcases bytes with _ | ⟨b6, bytes⟩
  · simp at hlen
  rcases bytes with _ | ⟨b7, bytes⟩
  · simp at hlen
  rcases bytes with _ | ⟨b8, bytes⟩
  · simp at hlen
  rcases bytes with _ | ⟨b9, bytes⟩
  · simp at hlen
  rcases bytes with _ | ⟨b10, bytes⟩
  · simp at hlen
  rcases bytes with _ | ⟨b11, bytes⟩
  · simp at hlen
  rcases bytes with _ | ⟨b12, bytes⟩
  · simp at hlen
  rcases bytes with _ | ⟨b13, bytes⟩
  · simp at hlen
  rcases bytes with _ | ⟨b14, bytes⟩
  · simp at hlen
  rcases bytes with _ | ⟨b15, bytes⟩
  · simp at hlen
  rcases bytes with _ | ⟨b16, bytes⟩
  · have hlist :
        (uuidv4 [b0, b1, b2, b3, b4, b5, b6, b7, b8, b9, b10, b11, b12, b13,
          b14, b15]).toList =
        [hexChar (b0 / 16 % 16), hexChar (b0 % 16),
         hexChar (b1 / 16 % 16), hexChar (b1 % 16),
         hexChar (b2 / 16 % 16), hexChar (b2 % 16),
         hexChar (b3 / 16 % 16), hexChar (b3 % 16), '-',
         hexChar (b4 / 16 % 16), hexChar (b4 % 16),
         hexChar (b5 / 16 % 16), hexChar (b5 % 16), '-',
         hexChar ((b6 % 16 + 64) / 16 % 16), hexChar ((b6 % 16 + 64) % 16),
         hexChar (b7 / 16 % 16), hexChar (b7 % 16), '-',
         hexChar ((b8 % 64 + 128) / 16 % 16), hexChar ((b8 % 64 + 128) % 16),
         hexChar (b9 / 16 % 16), hexChar (b9 % 16), '-',
         hexChar (b10 / 16 % 16), hexChar (b10 % 16),
         hexChar (b11 / 16 % 16), hexChar (b11 % 16),
         hexChar (b12 / 16 % 16), hexChar (b12 % 16),
         hexChar (b13 / 16 % 16), hexChar (b13 % 16),
         hexChar (b14 / 16 % 16), hexChar (b14 % 16),
         hexChar (b15 / 16 % 16), hexChar (b15 % 16)] := by
      show (uuidStringify (setVersionVariant [b0, b1, b2, b3, b4, b5, b6, b7,
        b8, b9, b10, b11, b12, b13, b14, b15])).toList = _
      rw [show setVersionVariant [b0, b1, b2, b3, b4, b5, b6, b7, b8, b9, b10,
        b11, b12, b13, b14, b15] =
        [b0, b1, b2, b3, b4, b5, b6 % 16 + 64, b7, b8 % 64 + 128, b9, b10, b11,
          b12, b13, b14, b15] from rfl]
      simp only [uuidStringify, byteHexChars, List.cons_append, List.nil_append,
        List.append_assoc]
      rfl
    unfold isUuidV4String
    rw [hlist]
    simp only [Bool.and_eq_true]
    refine ⟨⟨⟨?_, ?_⟩, ?_⟩, ?_⟩
    · rfl
    · simp only [List.all_eq_true, List.mem_range]
      intro i hi
      interval_cases i <;>
        first
          | rfl
          | exact isHexChar_hexChar _ (Nat.mod_lt _ (by norm_num))
    · show decide (hexChar ((b6 % 16 + 64) / 16 % 16) = '4') = true
      have h4 : (b6 % 16 + 64) / 16 % 16 = 4 := by omega
      rw [h4]; decide
    · show (decide (hexChar ((b8 % 64 + 128) / 16 % 16) = '8') ||
          decide (hexChar ((b8 % 64 + 128) / 16 % 16) = '9') ||
          decide (hexChar ((b8 % 64 + 128) / 16 % 16) = 'a') ||
          decide (hexChar ((b8 % 64 + 128) / 16 % 16) = 'b')) = true
      have h8 : 8 ≤ (b8 % 64 + 128) / 16 % 16 := by omega
      have h11 : (b8 % 64 + 128) / 16 % 16 ≤ 11 := by omega
      set v := (b8 % 64 + 128) / 16 % 16 with hv
      interval_cases v <;> decide
  · simp at hlen

/-- Characterization of a successful gateway `create` call. -/
theorem inquiryCreate_ok {db : DB} {now : Int} {uid : String}
    {name email message : Option String} {eventDate : Option Int}
    {userId : Option String} {i : Inquiry} {db2 : DB}
    (h : inquiryCreate db now uid name email message eventDate userId =
      .ok (i, db2)) :
    db.connected = true ∧ name = some i.name ∧ email = some i.email ∧
    message = some i.message ∧ eventDate = some i.eventDate ∧
    userId = i.userId ∧ i.id = uid ∧ i.createdAt = now ∧ i.updatedAt = now ∧
    db2.rows = db.rows ++ [i] ∧ db2.connected = db.connected ∧
    ∀ r ∈ db.rows, r.id ≠ uid := by
  unfold inquiryCreate at h
  split at h
  · exact Except.noConfusion h
  next hc =>
    split at h
    next n e m d =>
      split at h
      · exact Except.noConfusion h
      next hfresh =>
        simp only [Except.ok.injEq, Prod.mk.injEq] at h
        obtain ⟨hi, hdb⟩ := h
        subst hi
        subst hdb
        simp only [Bool.not_eq_true', Bool.not_eq_false] at hc
        refine ⟨hc, rfl, rfl, rfl, rfl, rfl, rfl, rfl, rfl, rfl, rfl, ?_⟩
        intro r hr hid
        exact hfresh (List.any_eq_true.mpr ⟨r, hr, by simp [hid]⟩)
    next hne => exact Except.noConfusion h

/-- A successful gateway `create` makes the POST handler send the created
row with status 200 and no log line, and adopt the updated datastore. -/
theorem postInquiries_of_ok {env : Env} {db : DB} {body : ReqBody}
    {i : Inquiry} {db2 : DB}
    (h : inquiryCreate db env.now (uuidv4 env.uuidBytes) body.name body.email
      body.message (body.eventDate.bind env.parseDate) body.userId =
      .ok (i, db2)) :
    postInquiries env db body =
      { resp := { status := 200, body := .record i }, db := db2, log := [] } := by
  unfold postInquiries
  rw [h]

/-- A thrown gateway `create` makes the POST handler send the fixed generic
500 body, leave the datastore untouched, and log the error detail. -/
theorem postInquiries_of_error {env : Env} {db : DB} {body : ReqBody}
    {e : PrismaError}
    (h : inquiryCreate db env.now (uuidv4 env.uuidBytes) body.name body.email
      body.message (body.eventDate.bind env.parseDate) body.userId =
      .error e) :
    postInquiries env db body =
      { resp := { status := 500, body := .errObj "Failed to create inquiry" },
        db := db, log := [.createError e] } := by
  unfold postInquiries
  rw [h]

/-- The list handler on a reachable datastore: 200, all rows sorted by
`createdAt` descending, datastore untouched, nothing logged. -/
theorem getInquiries_of_connected {db : DB} (hconn : db.connected = true) :
    getInquiries db =
      { resp := { status := 200,
                  body := .records (db.rows.insertionSort createdAtDesc) },
        db := db, log := [] } := by
  unfold getInquiries inquiryFindMany
  rw [hconn]
  rfl

/-- On a reachable datastore, the delete handler leaves exactly the rows
whose id differs from the target, in their original order, and keeps the
datastore reachable. -/
theorem deleteInquiry_db (db : DB) (tid : String) (hconn : db.connected = true) :
    (deleteInquiry db tid).db.rows = db.rows.filter (fun r => r.id ≠ tid) ∧
    (deleteInquiry db tid).db.connected = true := by
  unfold deleteInquiry inquiryDelete
  rw [hconn]
  cases hf : db.rows.find? (fun r => r.id = tid) with
  | none =>
      refine ⟨?_, hconn⟩
      show db.rows = db.rows.filter (fun r => r.id ≠ tid)
      symm
      rw [List.filter_eq_self]
      intro r hr
      have hne := List.find?_eq_none.mp hf r hr
      simpa using hne
  | some x => exact ⟨rfl, rfl⟩

/-- The delete handler never adds or modifies rows: every row present after
it ran was already present before. -/
theorem deleteInquiry_rows_subset (db : DB) (tid : String) :
    ∀ r ∈ (deleteInquiry db tid).db.rows, r ∈ db.rows := by
  intro r hr
  unfold deleteInquiry inquiryDelete at hr
  cases hc : db.connected with
  | false => rw [hc] at hr; exact hr
  | true =>
      rw [hc] at hr
      cases hf : db.rows.find? (fun x => x.id = tid) with
      | none => rw [hf] at hr; exact hr
      | some x =>
          rw [hf] at hr
          exact List.mem_of_mem_filter hr

/-! ## Concrete inputs used by the witnesses -/

/-- A concrete per-request environment: 16 random bytes, a clock value, and
a date parser that accepts every string. -/
def envW : Env :=
  { uuidBytes := [0, 1, 2, 3, 4, 5, 6, 7, 8, 9, 10, 11, 12, 13, 14, 15],
    now := 1700000000,
    parseDate := fun _ => some 1704067200 }

/-- An empty, reachable datastore. -/
def dbW : DB := { rows := [], connected := true }

/-- An unreachable datastore. -/
def dbDown : DB := { rows := [], connected := false }

/-- A well-formed create request body. -/
def bodyW : ReqBody :=
  { name := some "A", email := some "a@x.com", message := some "hi",
    eventDate := some "2024-01-01T00:00:00Z", userId := none, extra := [] }

/-- The row the gateway creates for `bodyW` under `envW` on `dbW`. -/
def rowW : Inquiry :=
  { id := uuidv4 envW.uuidBytes, name := "A", email := "a@x.com",
    message := "hi", eventDate := 1704067200, userId := none,
    createdAt := 1700000000, updatedAt := 1700000000 }

/-- The datastore after creating `rowW` in `dbW`. -/
def dbW2 : DB := { rows := [rowW], connected := true }

/-- An older row with a known literal id. -/
def rowX : Inquiry :=
  { id := "id-x", name := "B", email := "b@x.com", message := "yo",
    eventDate := 1500000000, userId := some "u1",
    createdAt := 1600000000, updatedAt := 1600000000 }

/-- A reachable datastore holding only `rowX`. -/
def dbOneX : DB := { rows := [rowX], connected := true }

/-- A newer row with a known literal id. -/
def rowY : Inquiry :=
  { id := "id-y", name := "C", email := "c@x.com", message := "hey",
    eventDate := 1710000000, userId := none,
    createdAt := 1690000000, updatedAt := 1690000000 }

/-- A reachable datastore holding `rowX` (older) then `rowY` (newer). -/
def dbTwo : DB := { rows := [rowX, rowY], connected := true }

/-! ## Claims -/

/-- C1: for every create request whose persistence call succeeds, POST
`/api/inquiries` responds with success status 200 and the full created
record as JSON — the service-generated id, the submitted name, email,
message, eventDate (converted to a timestamp), optional userId, and the
system-assigned createdAt and updatedAt. -/
theorem create_success_returns_full_record (env : Env) (db : DB)
    (body : ReqBody) (i : Inquiry) (db2 : DB)
    (h : inquiryCreate db env.now (uuidv4 env.uuidBytes) body.name body.email
      body.message (body.eventDate.bind env.parseDate) body.userId =
      .ok (i, db2)) :
    postInquiries env db body =
      { resp := { status := 200, body := .record i }, db := db2, log := [] } ∧
    i.id = uuidv4 env.uuidBytes ∧ some i.name = body.name ∧
    some i.email = body.email ∧ some i.message = body.message ∧
    some i.eventDate = body.eventDate.bind env.parseDate ∧
    i.userId = body.userId ∧ i.createdAt = env.now ∧ i.updatedAt = env.now := by
  obtain ⟨_, hn, he, hm, hd, hu, hid, hca, hua, _, _, _⟩ := inquiryCreate_ok h
  exact ⟨postInquiries_of_ok h, hid, hn.symm, he.symm, hm.symm, hd.symm,
    hu.symm, hca, hua⟩

/-- Witness for C1 at a concrete request. -/
theorem create_success_returns_full_record_witness :
    postInquiries envW dbW bodyW =
      { resp := { status := 200, body := .record rowW }, db := dbW2,
        log := [] } ∧
    rowW.id = uuidv4 envW.uuidBytes ∧ some rowW.name = bodyW.name ∧
    some rowW.email = bodyW.email ∧ some rowW.message = bodyW.message ∧
    some rowW.eventDate = bodyW.eventDate.bind envW.parseDate ∧
    rowW.userId = bodyW.userId ∧ rowW.createdAt = envW.now ∧
    rowW.updatedAt = envW.now :=
  create_success_returns_full_record envW dbW bodyW rowW dbW2 rfl

/-- C2: for every reachable state of the datastore, GET `/api/inquiries`
returns a JSON array of all inquiry records ordered by `createdAt`
descending (most recently created first), with no upper bound on result
size: the output is a permutation of the whole table, sorted descending,
of the same length. -/
theorem list_returns_all_sorted_desc (db : DB) (hconn : db.connected = true) :
    getInquiries db =
      { resp := { status := 200,
                  body := .records (db.rows.insertionSort createdAtDesc) },
        db := db, log := [] } ∧
    (db.rows.insertionSort createdAtDesc).Perm db.rows ∧
    List.Sorted createdAtDesc (db.rows.insertionSort createdAtDesc) ∧
    (db.rows.insertionSort createdAtDesc).length = db.rows.length ∧
    ∀ r ∈ db.rows, ∀ x,
      (db.rows.insertionSort createdAtDesc).head? = some x →
      r.createdAt ≤ x.createdAt := by
  refine ⟨getInquiries_of_connected hconn, List.perm_insertionSort _ _,
    List.sorted_insertionSort _ _, (List.perm_insertionSort _ _).length_eq,
    ?_⟩
  intro r hr x hx
  have hs := List.sorted_insertionSort createdAtDesc db.rows
  have hmem : r ∈ db.rows.insertionSort createdAtDesc :=
    (List.mem_insertionSort _).mpr hr
  cases hl : db.rows.insertionSort createdAtDesc with
  | nil => rw [hl] at hx; cases hx
  | cons a t =>
      rw [hl] at hx hmem hs
      have hax : a = x := by simpa using hx
      subst hax
      rcases List.mem_cons.mp hmem with hra | hrt
      · exact le_of_eq (by rw [hra])
      · exact (List.sorted_cons.mp hs).1 r hrt

/-- Witness for C2 on a two-row datastore. -/
theorem list_returns_all_sorted_desc_witness :
    getInquiries dbTwo =
      { resp := { status := 200,
                  body := .records (dbTwo.rows.insertionSort createdAtDesc) },
        db := dbTwo, log := [] } ∧
    (dbTwo.rows.insertionSort createdAtDesc).Perm dbTwo.rows ∧
    List.Sorted createdAtDesc (dbTwo.rows.insertionSort createdAtDesc) ∧
    (dbTwo.rows.insertionSort createdAtDesc).length = dbTwo.rows.length ∧
    ∀ r ∈ dbTwo.rows, ∀ x,
      (dbTwo.rows.insertionSort createdAtDesc).head? = some x →
      r.createdAt ≤ x.createdAt :=
  list_returns_all_sorted_desc dbTwo rfl

/-- C3: creating a record and then listing includes the created record
exactly once, with the submitted string fields preserved byte-for-byte and
the submitted eventDate round-tripping to the stored timestamp. -/
theorem create_then_list_contains_once (env : Env) (db : DB) (body : ReqBody)
    (i : Inquiry) (db2 : DB)
    (h : inquiryCreate db env.now (uuidv4 env.uuidBytes) body.name body.email
      body.message (body.eventDate.bind env.parseDate) body.userId =
      .ok (i, db2)) :
    ∃ out : List Inquiry,
      getInquiries db2 =
        { resp := { status := 200, body := .records out }, db := db2,
          log := [] } ∧
      out.count i = 1 ∧
      some i.name = body.name ∧ some i.email = body.email ∧
      some i.message = body.message ∧ i.userId = body.userId ∧
      some i.eventDate = body.eventDate.bind env.parseDate := by
  obtain ⟨hc, hn, he, hm, hd, hu, hid, _, _, hrows, hc2, hfresh⟩ :=
    inquiryCreate_ok h
  have hconn2 : db2.connected = true := by rw [hc2, hc]
  refine ⟨db2.rows.insertionSort createdAtDesc,
    getInquiries_of_connected hconn2, ?_, hn.symm, he.symm, hm.symm,
    hu.symm, hd.symm⟩
  rw [(List.perm_insertionSort createdAtDesc db2.rows).count_eq, hrows,
    List.count_append]
  have h0 : db.rows.count i = 0 := by
    rw [List.count_eq_zero]
    intro hmem
    exact hfresh i hmem hid
  rw [h0]
  simp

/-- Witness for C3 at a concrete create followed by a list. -/
theorem create_then_list_contains_once_witness :
    ∃ out : List Inquiry,
      getInquiries dbW2 =
        { resp := { status := 200, body := .records out }, db := dbW2,
          log := [] } ∧
      out.count rowW = 1 ∧
      some rowW.name = bodyW.name ∧ some rowW.email = bodyW.email ∧
      some rowW.message = bodyW.message ∧ rowW.userId = bodyW.userId ∧
      some rowW.eventDate = bodyW.eventDate.bind envW.parseDate :=
  create_then_list_contains_once envW dbW bodyW rowW dbW2 rfl

/-- C4: when the persistence call of a create request throws — whatever
the error — the handler responds exactly 500 with body
`\x7berror: "Failed to create inquiry"\x7d`, the datastore is untouched,
and the error detail goes only to the server-side log, never into the
response (the response below is one fixed constant independent of `e`). -/
theorem create_failure_uniform_500 (env : Env) (db : DB) (body : ReqBody)
    (e : PrismaError)
    (h : inquiryCreate db env.now (uuidv4 env.uuidBytes) body.name body.email
      body.message (body.eventDate.bind env.parseDate) body.userId =
      .error e) :
    postInquiries env db body =
      { resp := { status := 500, body := .errObj "Failed to create inquiry" },
        db := db, log := [.createError e] } :=
  postInquiries_of_error h

/-- Witness for C4: a create attempted against an unreachable datastore. -/
theorem create_failure_uniform_500_witness :
    postInquiries envW dbDown bodyW =
      { resp := { status := 500, body := .errObj "Failed to create inquiry" },
        db := dbDown, log := [.createError .connectivity] } :=
  create_failure_uniform_500 envW dbDown bodyW .connectivity rfl

/-- C5: DELETE `/api/inquiries/:id` changes at most the record whose id
matches: the remaining table is exactly the original filtered to the other
ids (order preserved), and a subsequent list contains no record with the
deleted id and is a permutation of that filtered table. -/
theorem delete_frame_property (db : DB) (tid : String)
    (hconn : db.connected = true) :
    (deleteInquiry db tid).db.rows = db.rows.filter (fun r => r.id ≠ tid) ∧
    ∃ out : List Inquiry,
      getInquiries (deleteInquiry db tid).db =
        { resp := { status := 200, body := .records out },
          db := (deleteInquiry db tid).db, log := [] } ∧
      (∀ r ∈ out, r.id ≠ tid) ∧
      out.Perm (db.rows.filter (fun r => r.id ≠ tid)) := by
  obtain ⟨hrows, hconn2⟩ := deleteInquiry_db db tid hconn
  refine ⟨hrows, (deleteInquiry db tid).db.rows.insertionSort createdAtDesc,
    getInquiries_of_connected hconn2, ?_, ?_⟩
  · intro r hr
    rw [List.mem_insertionSort, hrows, List.mem_filter] at hr
    simpa using hr.2
  · exact (List.perm_insertionSort _ _).trans (hrows ▸ List.Perm.refl _)

/-- Witness for C5: deleting the older of two rows. -/
theorem delete_frame_property_witness :
    (deleteInquiry dbTwo "id-x").db.rows =
      dbTwo.rows.filter (fun r => r.id ≠ "id-x") ∧
    ∃ out : List Inquiry,
      getInquiries (deleteInquiry dbTwo "id-x").db =
        { resp := { status := 200, body := .records out },
          db := (deleteInquiry dbTwo "id-x").db, log := [] } ∧
      (∀ r ∈ out, r.id ≠ "id-x") ∧
      out.Perm (dbTwo.rows.filter (fun r => r.id ≠ "id-x")) :=
  delete_frame_property dbTwo "id-x" rfl

/-- C6: deleting an id that no stored record has yields exactly 500 with
body `\x7berror: "Failed to delete inquiry"\x7d` — no distinct not-found
result exists — the datastore is untouched and the process keeps serving
(a subsequent list succeeds); deleting an existing id yields 200 with
`\x7bmessage: "Inquiry deleted successfully"\x7d`. -/
theorem delete_nonexistent_500_existing_200 (db : DB) (tid : String)
    (hconn : db.connected = true) :
    ((∀ r ∈ db.rows, r.id ≠ tid) →
      deleteInquiry db tid =
        { resp := { status := 500,
                    body := .errObj "Failed to delete inquiry" },
          db := db, log := [.deleteError .notFound] } ∧
      getInquiries (deleteInquiry db tid).db =
        { resp := { status := 200,
                    body := .records (db.rows.insertionSort createdAtDesc) },
          db := db, log := [] }) ∧
    ((∃ r ∈ db.rows, r.id = tid) →
      (deleteInquiry db tid).resp =
        { status := 200, body := .msgObj "Inquiry deleted successfully" }) := by
  constructor
  · intro habsent
    have hf : db.rows.find? (fun r => r.id = tid) = none := by
      rw [List.find?_eq_none]
      intro r hr
      simpa using habsent r hr
    have hd : deleteInquiry db tid =
        { resp := { status := 500,
                    body := .errObj "Failed to delete inquiry" },
          db := db, log := [.deleteError .notFound] } := by
      unfold deleteInquiry inquiryDelete
      rw [hconn, hf]
      rfl
    refine ⟨hd, ?_⟩
    rw [hd]
    exact getInquiries_of_connected hconn
  · rintro ⟨r, hr, hid⟩
    have hsome : (db.rows.find? (fun x => x.id = tid)).isSome :=
      List.find?_isSome.mpr ⟨r, hr, by simp [hid]⟩
    obtain ⟨x, hf⟩ := Option.isSome_iff_exists.mp hsome
    unfold deleteInquiry inquiryDelete
    rw [hconn, hf]
    rfl

/-- Witness for C6: a never-created id and an existing id on a one-row
datastore. -/
theorem delete_nonexistent_500_existing_200_witness :
    (deleteInquiry dbOneX "nope").resp =
      { status := 500, body := .errObj "Failed to delete inquiry" } ∧
    (deleteInquiry dbOneX "id-x").resp =
      { status := 200, body := .msgObj "Inquiry deleted successfully" } := by
  constructor
  · rw [((delete_nonexistent_500_existing_200 dbOneX "nope" rfl).1
      (by intro r hr; simp [dbOneX, rowX] at hr; simp [hr, rowX])).1]
  · exact (delete_nonexistent_500_existing_200 dbOneX "id-x" rfl).2
      ⟨rowX, by simp [dbOneX], rfl⟩

/-- C7: the id of a successfully created record is generated by the
service (it equals the value drawn by `uuidv4`, so the datastore and the
caller have no hand in it), has UUID-v4 textual form, and — when the
generator draw is fresh — differs from every previously created record's
id; it also differs from every id currently stored, and no later delete
ever modifies a stored record (rows only ever survive unchanged or
disappear). -/
theorem create_id_fresh_uuid (env : Env) (db : DB) (body : ReqBody)
    (i : Inquiry) (db2 : DB) (prevIds : List String)
    (hlen : env.uuidBytes.length = 16)
    (hgen : uuidv4 env.uuidBytes ∉ prevIds)
    (h : inquiryCreate db env.now (uuidv4 env.uuidBytes) body.name body.email
      body.message (body.eventDate.bind env.parseDate) body.userId =
      .ok (i, db2)) :
    i.id = uuidv4 env.uuidBytes ∧
    isUuidV4String i.id = true ∧
    i.id ∉ prevIds ∧
    (∀ r ∈ db.rows, r.id ≠ i.id) ∧
    ∀ tid : String, ∀ r ∈ (deleteInquiry db2 tid).db.rows, r ∈ db2.rows := by
  obtain ⟨_, _, _, _, _, _, hid, _, _, _, _, hnew⟩ := inquiryCreate_ok h
  refine ⟨hid, ?_, ?_, ?_, ?_⟩
  · rw [hid]
    exact isUuidV4String_uuidv4 _ hlen
  · rw [hid]
    exact hgen
  · intro r hr
    rw [hid]
    exact hnew r hr
  · intro tid r hr
    exact deleteInquiry_rows_subset db2 tid r hr

/-- Witness for C7 at a concrete create with an empty history. -/
theorem create_id_fresh_uuid_witness :
    rowW.id = uuidv4 envW.uuidBytes ∧
    isUuidV4String rowW.id = true ∧
    rowW.id ∉ ([] : List String) ∧
    (∀ r ∈ dbW.rows, r.id ≠ rowW.id) ∧
    ∀ tid : String, ∀ r ∈ (deleteInquiry dbW2 tid).db.rows, r ∈ dbW2.rows :=
  create_id_fresh_uuid envW dbW bodyW rowW dbW2 []
    rfl (List.not_mem_nil _) rfl

/-- C8: omitting any one of the required fields makes the persistence call
itself throw — there is no separate server-side validation step — so the
handler answers with the same generic 500 create-failure body and the
datastore gains no partially-created record. -/
theorem create_missing_field_fails (env : Env) (db : DB) (body : ReqBody)
    (hmiss : body.name = none ∨ body.email = none ∨ body.message = none ∨
      body.eventDate = none) :
    ∃ e : PrismaError,
      postInquiries env db body =
        { resp := { status := 500,
                    body := .errObj "Failed to create inquiry" },
          db := db, log := [.createError e] } ∧
      inquiryCreate db env.now (uuidv4 env.uuidBytes) body.name body.email
        body.message (body.eventDate.bind env.parseDate) body.userId =
        .error e ∧
      (db.connected = true → e = .validation) := by
  cases hc : db.connected with
  | false =>
      have hcr : inquiryCreate db env.now (uuidv4 env.uuidBytes) body.name
          body.email body.message (body.eventDate.bind env.parseDate)
          body.userId = .error .connectivity := by
        unfold inquiryCreate
        rw [hc]
        rfl
      exact ⟨.connectivity, postInquiries_of_error hcr, hcr,
        fun h => absurd h (by decide)⟩
  | true =>
      have hcr : inquiryCreate db env.now (uuidv4 env.uuidBytes) body.name
          body.email body.message (body.eventDate.bind env.parseDate)
          body.userId = .error .validation := by
        unfold inquiryCreate
        rw [hc]
        rcases hmiss with h0 | h0 | h0 | h0
        · rw [h0]
          rfl
        · rcases hn : body.name with _ | n
          · rfl
          · rw [h0]
            rfl
        · rcases hn : body.name with _ | n
          · rfl
          · rcases he : body.email with _ | em
            · rfl
            · rw [h0]
              rfl
        · rcases hn : body.name with _ | n
          · rfl
          · rcases he : body.email with _ | em
            · rfl
            · rcases hm : body.message with _ | ms
              · rfl
              · rw [h0]
                rfl
      exact ⟨.validation, postInquiries_of_error hcr, hcr, fun _ => rfl⟩

/-- Witness for C8: a create request whose `name` member is absent. -/
theorem create_missing_field_fails_witness :
    ∃ e : PrismaError,
      postInquiries envW dbW { bodyW with name := none } =
        { resp := { status := 500,
                    body := .errObj "Failed to create inquiry" },
          db := dbW, log := [.createError e] } ∧
      inquiryCreate dbW envW.now (uuidv4 envW.uuidBytes)
        ({ bodyW with name := none } : ReqBody).name
        ({ bodyW with name := none } : ReqBody).email
        ({ bodyW with name := none } : ReqBody).message
        (({ bodyW with name := none } : ReqBody).eventDate.bind envW.parseDate)
        ({ bodyW with name := none } : ReqBody).userId = .error e ∧
      (dbW.connected = true → e = .validation) :=
  create_missing_field_fails envW dbW { bodyW with name := none }
    (Or.inl rfl)

/-- C9: the catch-all error middleware answers every failure with 500 and
the well-formed JSON body `\x7berror: "Something broke!"\x7d` — a constant
independent of the failure — and logs the stack trace server-side only. -/
theorem error_middleware_uniform (err : JsError) :
    errorMiddleware err =
      ({ status := 500, body := .errObj "Something broke!" },
        [.stackTrace err.stack]) :=
  rfl

/-- C10: the create handler reads only the five declared body fields: two
bodies agreeing on them — whatever their other members, including a
caller-supplied id, createdAt or updatedAt — produce identical behavior,
and any row the handler adds carries the service-generated uuid, so a
caller can never choose the stored id. -/
theorem create_reads_only_declared_fields (env : Env) (db : DB)
    (b1 b2 : ReqBody)
    (hn : b1.name = b2.name) (he : b1.email = b2.email)
    (hm : b1.message = b2.message) (hd : b1.eventDate = b2.eventDate)
    (hu : b1.userId = b2.userId) :
    postInquiries env db b1 = postInquiries env db b2 ∧
    ∀ r ∈ (postInquiries env db b1).db.rows,
      r ∈ db.rows ∨ r.id = uuidv4 env.uuidBytes := by
  constructor
  · unfold postInquiries
    rw [hn, he, hm, hd, hu]
  · intro r hr
    cases hcr : inquiryCreate db env.now (uuidv4 env.uuidBytes) b1.name
        b1.email b1.message (b1.eventDate.bind env.parseDate) b1.userId with
    | error e =>
        rw [postInquiries_of_error hcr] at hr
        exact Or.inl hr
    | ok p =>
        obtain ⟨i, db2⟩ := p
        rw [postInquiries_of_ok hcr] at hr
        obtain ⟨_, _, _, _, _, _, hid, _, _, hrows, _, _⟩ :=
          inquiryCreate_ok hcr
        rw [hrows, List.mem_append] at hr
        rcases hr with hr | hr
        · exact Or.inl hr
        · right
          rw [List.mem_singleton.mp hr]
          exact hid

/-- Witness for C10: a body with extra members, among them an
attacker-chosen id and timestamps, behaves like the clean body. -/
theorem create_reads_only_declared_fields_witness :
    postInquiries envW dbW bodyW =
      postInquiries envW dbW
        { bodyW with extra := [("id", "attacker-chosen"),
          ("createdAt", "1999-01-01"), ("updatedAt", "1999-01-01")] } ∧
    ∀ r ∈ (postInquiries envW dbW bodyW).db.rows,
      r ∈ dbW.rows ∨ r.id = uuidv4 envW.uuidBytes :=
  create_reads_only_declared_fields envW dbW bodyW
    { bodyW with extra := [("id", "attacker-chosen"),
      ("createdAt", "1999-01-01"), ("updatedAt", "1999-01-01")] }
    rfl rfl rfl rfl rfl

end WDDServer
